import Mathlib

/-!
Verification of the `.saber` → ReeSaber preset converter (`convert.py`).

The script is shallowly embedded below.  Python strings are modelled as
`List Char`, byte strings as `List Nat` (each byte `< 256` where it matters),
and the per-object `try/except` blocks as explicit outcome inductives.  The
extraction loops, the preset template and the on-disk writes are modelled
from the source; fields of the preset that are constant literals never
inspected by any property (mask settings, transforms, colors, …) are omitted
from the `Module` record, which keeps the identifiers, versions and the
asset-reference fields the properties are about.
-/

/-! ### String helpers (Python `str` operations used by the script) -/

/-- Characters kept by the sanitization step:
`c.isalnum() or c in (' ', '-', '_')` (convert.py lines 68, 115, 156). -/
def keepChar (c : Char) : Bool :=
  c.isAlphanum || c == ' ' || c == '-' || c == '_'

/-- Python `str.strip()`: drop leading and trailing whitespace. -/
def pyStrip (s : List Char) : List Char :=
  ((s.dropWhile Char.isWhitespace).reverse.dropWhile Char.isWhitespace).reverse

/-- The cleaning part of sanitization:
`"".join(c for c in name if c.isalnum() or c in (' ', '-', '_')).strip()`. -/
def cleanName (s : List Char) : List Char :=
  pyStrip (s.filter keepChar)

/-- Full sanitization including the fallback:
`mesh_name_clean = clean(...)`; `if not mesh_name_clean: mesh_name_clean = fb`
(convert.py lines 68-70, 115-117, 156-158). -/
def sanitize (s fb : List Char) : List Char :=
  if cleanName s = [] then fb else cleanName s

/-- Python `str.lower()` (ASCII model). -/
def pyLower (s : List Char) : List Char := s.map Char.toLower

/-- Does `h` start with `n`? (helper for Python's substring test). -/
def listStartsWith : List Char → List Char → Bool
  | [], _ => true
  | _ :: _, [] => false
  | a :: n, b :: h => decide (a = b) && listStartsWith n h

/-- Python `n in h` for strings: `n` occurs contiguously inside `h`. -/
def isSubstring (n : List Char) : List Char → Bool
  | [] => listStartsWith n []
  | c :: rest => listStartsWith n (c :: rest) || isSubstring n rest

/-- Decimal digits of a natural number (model of Python's string formatting
of `obj.path_id`). -/
def natDigits (n : Nat) : List Char := Nat.toDigits 10 n

/-! ### Base64 (model of Python's `base64.b64encode`) -/

/-- The standard base64 alphabet used by `base64.b64encode`. -/
def b64Alphabet : List Char :=
  "ABCDEFGHIJKLMNOPQRSTUVWXYZabcdefghijklmnopqrstuvwxyz0123456789+/".toList

/-- The alphabet character for a 6-bit value. -/
def b64Char (n : Nat) : Char := b64Alphabet.getD n '='

/-- Index of a character in a list, if present. -/
def charIndex (c : Char) : List Char → Option Nat
  | [] => none
  | a :: rest => if a = c then some 0 else (charIndex c rest).map (· + 1)

/-- The 6-bit value of a base64 alphabet character. -/
def b64CharVal (c : Char) : Option Nat := charIndex c b64Alphabet

/-- Standard base64 encoding of a byte list, with `=` padding. -/
def b64encode : List Nat → List Char
  | [] => []
  | [a] => [b64Char (a / 4), b64Char (a % 4 * 16), '=', '=']
  | [a, b] => [b64Char (a / 4), b64Char (a % 4 * 16 + b / 16), b64Char (b % 16 * 4), '=']
  | a :: b :: c :: rest =>
      b64Char (a / 4) :: b64Char (a % 4 * 16 + b / 16) ::
      b64Char (b % 16 * 4 + c / 64) :: b64Char (c % 64) :: b64encode rest

/-- Standard base64 decoding; `none` on malformed input. -/
def b64decode : List Char → Option (List Nat)
  | [] => some []
  | c1 :: c2 :: c3 :: c4 :: rest =>
      if rest = [] ∧ c3 = '=' ∧ c4 = '=' then
        match b64CharVal c1, b64CharVal c2 with
        | some v1, some v2 => some [v1 * 4 + v2 / 16]
        | _, _ => none
      else if rest = [] ∧ c4 = '=' then
        match b64CharVal c1, b64CharVal c2, b64CharVal c3 with
        | some v1, some v2, some v3 =>
            some [v1 * 4 + v2 / 16, v2 % 16 * 16 + v3 / 4]
        | _, _, _ => none
      else
        match b64CharVal c1, b64CharVal c2, b64CharVal c3, b64CharVal c4, b64decode rest with
        | some v1, some v2, some v3, some v4, some tail =>
            some ((v1 * 4 + v2 / 16) :: (v2 % 16 * 16 + v3 / 4) :: (v3 % 4 * 64 + v4) :: tail)
        | _, _, _, _, _ => none
  | _ => none

/-! ### Data model of decoded bundle objects -/

/-- Outcome of the per-object export step (`data.export()` for meshes,
`data.image` plus PNG serialization for textures/sprites).  `ok pl` is a
successful export with payload bytes `pl` (possibly empty); `throws e`
models a raised exception whose message text is `e`. -/
inductive ExportOutcome where
  | throws (e : List Char)
  | ok (payload : List Nat)
deriving DecidableEq

/-- Outcome of `obj.read()`: either it throws, or it yields a decoded object
with an optional `name` attribute and an export capability. -/
inductive ReadOutcome where
  | throws (e : List Char)
  | ok (nameAttr : Option (List Char)) (exportRes : ExportOutcome)
deriving DecidableEq

/-- One object of the loaded asset bundle, as consumed by the script:
its type name (`obj.type.name`), its identity handle (`obj.path_id`) and
what `obj.read()` does. -/
structure UnityObject where
  typeName : List Char
  pathId : Nat
  read : ReadOutcome
deriving DecidableEq

/-- Record appended to `mesh_data` / `texture_data` for a successful export
(convert.py lines 89-94, 133-138, 174-179); the base64 text stored in the
script's `data` field is recovered as `b64encode payload`. -/
structure ExtractedAsset where
  name : List Char
  filename : List Char
  payload : List Nat
  originalName : List Char
deriving DecidableEq

/-- Output subfolder a file is written to. -/
inductive Folder where
  | geo
  | tex
deriving DecidableEq

/-- One completed file write (`open(...,'wb').write` / `img.save`). -/
structure FileWrite where
  folder : Folder
  filename : List Char
  content : List Nat
deriving DecidableEq

/-- Result of one extraction pass: appended asset records, files written,
and warning lines printed, all in order. -/
structure ExtractResult where
  assets : List ExtractedAsset
  files : List FileWrite
  warnings : List (List Char)
deriving DecidableEq

/-- Synthesized fallback name for a mesh: `f"mesh_{obj.path_id}"`. -/
def meshFallback (pid : Nat) : List Char := "mesh_".toList ++ natDigits pid

/-- Synthesized fallback name for a texture: `f"texture_{obj.path_id}"`. -/
def texFallback (pid : Nat) : List Char := "texture_".toList ++ natDigits pid

/-- Synthesized fallback name for a sprite: `f"sprite_{obj.path_id}"`. -/
def spriteFallback (pid : Nat) : List Char := "sprite_".toList ++ natDigits pid

/-- Name resolution: `data.name if hasattr(data, 'name') and data.name else fb`
(convert.py lines 65, 112, 153).  A missing attribute and an empty (falsy)
string both select the fallback. -/
def resolveName (nameAttr : Option (List Char)) (fb : List Char) : List Char :=
  match nameAttr with
  | none => fb
  | some n => if n = [] then fb else n

/-- One iteration of the mesh loop (convert.py lines 61-101). -/
def meshStep (o : UnityObject) : ExtractResult :=
  if o.typeName = "Mesh".toList then
    match o.read with
    | ReadOutcome.throws e =>
        ⟨[], [], ["Failed to process mesh object: ".toList ++ e]⟩
    | ReadOutcome.ok nameAttr ex =>
        let nm := resolveName nameAttr (meshFallback o.pathId)
        let clean := sanitize nm (meshFallback o.pathId)
        match ex with
        | ExportOutcome.throws e =>
            ⟨[], [], ["Failed to export mesh '".toList ++ clean ++ "': ".toList ++ e]⟩
        | ExportOutcome.ok pl =>
            if pl = [] then
              ⟨[], [], ["Empty mesh export for: ".toList ++ clean]⟩
            else
              ⟨[⟨clean, clean ++ ".obj".toList, pl, nm⟩],
               [⟨Folder.geo, clean ++ ".obj".toList, pl⟩], []⟩
  else ⟨[], [], []⟩

/-- One iteration of the texture loop (convert.py lines 108-143).  Note the
code has no empty-payload check here: any non-throwing export is written to
disk and recorded. -/
def texStep (o : UnityObject) : ExtractResult :=
  if o.typeName = "Texture2D".toList then
    match o.read with
    | ReadOutcome.throws e =>
        ⟨[], [], ["Failed to process texture object: ".toList ++ e]⟩
    | ReadOutcome.ok nameAttr ex =>
        let nm := resolveName nameAttr (texFallback o.pathId)
        let clean := sanitize nm (texFallback o.pathId)
        match ex with
        | ExportOutcome.throws e =>
            ⟨[], [], ["Failed to export texture '".toList ++ clean ++ "': ".toList ++ e]⟩
        | ExportOutcome.ok pl =>
            ⟨[⟨clean, clean ++ ".png".toList, pl, nm⟩],
             [⟨Folder.tex, clean ++ ".png".toList, pl⟩], []⟩
  else ⟨[], [], []⟩

/-- One iteration of the sprite loop (convert.py lines 149-184); sprites land
in the same destination pool (`texture_data`, `CustomTextures/`) as textures. -/
def spriteStep (o : UnityObject) : ExtractResult :=
  if o.typeName = "Sprite".toList then
    match o.read with
    | ReadOutcome.throws e =>
        ⟨[], [], ["Failed to process sprite object: ".toList ++ e]⟩
    | ReadOutcome.ok nameAttr ex =>
        let nm := resolveName nameAttr (spriteFallback o.pathId)
        let clean := sanitize nm (spriteFallback o.pathId)
        match ex with
        | ExportOutcome.throws e =>
            ⟨[], [], ["Failed to export sprite '".toList ++ clean ++ "': ".toList ++ e]⟩
        | ExportOutcome.ok pl =>
            ⟨[⟨clean, clean ++ ".png".toList, pl, nm⟩],
             [⟨Folder.tex, clean ++ ".png".toList, pl⟩], []⟩
  else ⟨[], [], []⟩

/-- Run one extraction pass over all bundle objects, appending results in
encounter order (the `for obj in env.objects` loops). -/
def runSteps (step : UnityObject → ExtractResult) : List UnityObject → ExtractResult
  | [] => ⟨[], [], []⟩
  | o :: rest =>
      let s := step o
      let r := runSteps step rest
      ⟨s.assets ++ r.assets, s.files ++ r.files, s.warnings ++ r.warnings⟩

/-- The mesh extraction pass producing `mesh_data`. -/
def extractMeshes (objs : List UnityObject) : ExtractResult := runSteps meshStep objs

/-- The texture extraction pass (first contributor to `texture_data`). -/
def extractTextures (objs : List UnityObject) : ExtractResult := runSteps texStep objs

/-- The sprite extraction pass (second contributor to `texture_data`). -/
def extractSprites (objs : List UnityObject) : ExtractResult := runSteps spriteStep objs

/-- The final `texture_data` list: the texture pass runs to completion before
the sprite pass appends. -/
def textureData (objs : List UnityObject) : List ExtractedAsset :=
  (extractTextures objs).assets ++ (extractSprites objs).assets

/-! ### Classifier -/

/-- Keywords mapping a mesh name to the hilt category (convert.py line 202). -/
def hiltKeywords : List (List Char) :=
  ["hilt".toList, "handle".toList, "grip".toList, "guard".toList,
   "pommel".toList, "emitter".toList]

/-- Keywords mapping a mesh name to the blade category (convert.py line 206). -/
def bladeKeywords : List (List Char) :=
  ["blade".toList, "beam".toList, "glow".toList, "laser".toList]

/-- `any(k in name_lower for k in keywords)`. -/
def hasAnyKeyword (ks : List (List Char)) (s : List Char) : Bool :=
  ks.any (fun k => isSubstring k s)

/-- `categorize_mesh` (convert.py lines 197-210). -/
def categorize_mesh (name : List Char) : List Char :=
  if hasAnyKeyword hiltKeywords (pyLower name) then "hilt".toList
  else if hasAnyKeyword bladeKeywords (pyLower name) then "blade".toList
  else "hilt".toList

/-! ### Preset builder -/

/-- Configuration fields of a module that any property below inspects; the
many constant literal fields of the template are omitted. -/
inductive ModuleConfig where
  | trail (customTextureId opacityTextureId : List Char)
  | customModel (modelId : List Char)
deriving DecidableEq

/-- One entry of the preset's `Modules` list (`Module` in the JSON schema). -/
structure PresetModule where
  moduleId : List Char
  version : Nat
  config : ModuleConfig
deriving DecidableEq

/-- One entry of `BinaryAssets.Geometry` / `BinaryAssets.Textures`:
`{"AssetName": ..., "Data": <base64 text>}`. -/
structure BinaryAsset where
  assetName : List Char
  data : List Char
deriving DecidableEq

/-- The produced preset (the claim-relevant skeleton of the JSON document). -/
structure Preset where
  modVersion : List Char
  version : Nat
  modules : List PresetModule
  textures : List BinaryAsset
  geometry : List BinaryAsset
deriving DecidableEq

/-- `trail_texture = texture_data[0]["filename"] if texture_data else ""`
(convert.py line 215). -/
def trailTextureOf (texData : List ExtractedAsset) : List Char :=
  match texData with
  | [] => []
  | t :: _ => t.filename

/-- The trail module appended first (convert.py lines 236-357). -/
def trailModule (trailTexture : List Char) : PresetModule :=
  ⟨"reezonate.simple-trail".toList, 1, ModuleConfig.trail trailTexture trailTexture⟩

/-- The custom-model module appended for one mesh (convert.py lines 360-459),
with `modelId` set to the mesh's filename. -/
def customModelModule (m : ExtractedAsset) : PresetModule :=
  ⟨"reezonate.custom-model".toList, 1, ModuleConfig.customModel m.filename⟩

/-- Assemble the preset from the extracted records (convert.py lines 217-473). -/
def buildPreset (meshData texData : List ExtractedAsset) : Preset :=
  { modVersion := "0.3.17".toList
  , version := 1
  , modules := trailModule (trailTextureOf texData) :: meshData.map customModelModule
  , geometry := meshData.map (fun m => ⟨m.filename, b64encode m.payload⟩)
  , textures := texData.map (fun t => ⟨t.filename, b64encode t.payload⟩) }

/-- The `warn` line printed when `mesh_data` is empty (convert.py line 193). -/
def noMeshWarnMsg : List Char :=
  "Warning: No meshes extracted. Preset will be empty.".toList

/-- Observable outcome of one successful run of the script after the bundle
was loaded (load and preset-write failures terminate the process outside
this pipeline; on this path the script always exits with status 0). -/
structure RunResult where
  preset : Preset
  files : List FileWrite
  warnings : List (List Char)
  exitCode : Nat
deriving DecidableEq

/-- The whole post-load pipeline: extract meshes, then textures, then
sprites; warn when no mesh was extracted; build the preset. -/
def run (objs : List UnityObject) : RunResult :=
  { preset := buildPreset (extractMeshes objs).assets (textureData objs)
  , files := (extractMeshes objs).files ++ (extractTextures objs).files
      ++ (extractSprites objs).files
  , warnings := (extractMeshes objs).warnings ++ (extractTextures objs).warnings
      ++ (extractSprites objs).warnings
      ++ (if (extractMeshes objs).assets = [] then [noMeshWarnMsg] else [])
  , exitCode := 0 }

/-- Final content of a file on disk after the run: writes to the same folder
and filename overwrite, last write wins. -/
def diskContents (files : List FileWrite) (fo : Folder) (fn : List Char) :
    Option (List Nat) :=
  ((files.filter (fun w => decide (w.folder = fo) && decide (w.filename = fn))).getLast?).map
    FileWrite.content

/-! ### Lemmas about stripping and cleaning -/

theorem dropWhile_self_idem (p : Char → Bool) (l : List Char) :
    (l.dropWhile p).dropWhile p = l.dropWhile p := by
  induction l with
  | nil => rfl
  | cons a t ih =>
      by_cases h : p a
      · simp [List.dropWhile_cons, h, ih]
      · simp [List.dropWhile_cons, h]

theorem dropWhile_len_le (p : Char → Bool) (l : List Char) :
    (l.dropWhile p).length ≤ l.length := by
  induction l with
  | nil => simp
  | cons a t ih =>
      by_cases h : p a
      · simp [List.dropWhile_cons, h]; omega
      · simp [List.dropWhile_cons, h]

theorem dropWhile_fixed_head (p : Char → Bool) (x : Char) (t : List Char)
    (h : (x :: t).dropWhile p = x :: t) : p x = false := by
  by_cases hx : p x
  · rw [List.dropWhile_cons_of_pos hx] at h
    have h1 := dropWhile_len_le p t
    have h2 := congrArg List.length h
    simp at h2
    omega
  · simpa using hx

theorem dropWhile_fixed_of_append (p : Char → Bool) (l l' t : List Char)
    (hfix : l.dropWhile p = l) (happ : l' ++ t = l) : l'.dropWhile p = l' := by
  cases l' with
  | nil => rfl
  | cons x t' =>
      have hx : p x = false := by
        apply dropWhile_fixed_head p x (t' ++ t)
        rw [← happ] at hfix
        simpa using hfix
      simp [List.dropWhile_cons, hx]

theorem pyStrip_idem (s : List Char) : pyStrip (pyStrip s) = pyStrip s := by
  unfold pyStrip
  set ws := Char.isWhitespace with hws
  set a := s.dropWhile ws with ha
  have hafix : a.dropWhile ws = a := by rw [ha]; exact dropWhile_self_idem ws s
  set t := ((a.reverse).dropWhile ws).reverse with hteq
  have htfix : t.dropWhile ws = t := by
    apply dropWhile_fixed_of_append ws a t ((a.reverse.takeWhile ws).reverse) hafix
    rw [hteq, ← List.reverse_append, List.takeWhile_append_dropWhile, List.reverse_reverse]
  rw [htfix, hteq, List.reverse_reverse, dropWhile_self_idem]

theorem mem_dropWhile (p : Char → Bool) (l : List Char) (c : Char)
    (h : c ∈ l.dropWhile p) : c ∈ l := by
  have := List.takeWhile_append_dropWhile (p := p) (l := l)
  rw [← this]
  exact List.mem_append.mpr (Or.inr h)

theorem mem_pyStrip (s : List Char) (c : Char) (h : c ∈ pyStrip s) : c ∈ s := by
  unfold pyStrip at h
  rw [List.mem_reverse] at h
  have h2 := mem_dropWhile _ _ _ h
  rw [List.mem_reverse] at h2
  exact mem_dropWhile _ _ _ h2

theorem mem_cleanName_keep (s : List Char) (c : Char) (h : c ∈ cleanName s) :
    keepChar c = true := by
  unfold cleanName at h
  have := mem_pyStrip _ _ h
  exact (List.mem_filter.mp this).2

theorem cleanName_idem (s : List Char) : cleanName (cleanName s) = cleanName s := by
  unfold cleanName
  have hfilter : (pyStrip (s.filter keepChar)).filter keepChar
      = pyStrip (s.filter keepChar) := by
    apply List.filter_eq_self.mpr
    intro c hc
    exact mem_cleanName_keep s c hc
  rw [hfilter, pyStrip_idem]

/-! ### Base64 round-trip -/

theorem b64CharVal_b64Char_all : ∀ n, n < 64 → b64CharVal (b64Char n) = some n := by
  decide

theorem b64Char_ne_pad : ∀ n, n < 64 → b64Char n ≠ '=' := by
  decide


theorem b64decode_pad2 (c1 c2 : Char) (v1 v2 : Nat)
    (h1 : b64CharVal c1 = some v1) (h2 : b64CharVal c2 = some v2) :
    b64decode [c1, c2, '=', '='] = some [v1 * 4 + v2 / 16] := by
  unfold b64decode
  rw [if_pos ⟨rfl, rfl, rfl⟩, h1, h2]

theorem b64decode_pad1 (c1 c2 c3 : Char) (v1 v2 v3 : Nat) (hc3 : c3 ≠ '=')
    (h1 : b64CharVal c1 = some v1) (h2 : b64CharVal c2 = some v2)
    (h3 : b64CharVal c3 = some v3) :
    b64decode [c1, c2, c3, '='] = some [v1 * 4 + v2 / 16, v2 % 16 * 16 + v3 / 4] := by
  unfold b64decode
  rw [if_neg (fun hcon => hc3 hcon.2.1), if_pos ⟨rfl, rfl⟩, h1, h2, h3]

theorem b64decode_full (c1 c2 c3 c4 : Char) (rest : List Char)
    (v1 v2 v3 v4 : Nat) (tail : List Nat) (hc3 : c3 ≠ '=') (hc4 : c4 ≠ '=')
    (h1 : b64CharVal c1 = some v1) (h2 : b64CharVal c2 = some v2)
    (h3 : b64CharVal c3 = some v3) (h4 : b64CharVal c4 = some v4)
    (hrest : b64decode rest = some tail) :
    b64decode (c1 :: c2 :: c3 :: c4 :: rest)
      = some ((v1 * 4 + v2 / 16) :: (v2 % 16 * 16 + v3 / 4) :: (v3 % 4 * 64 + v4) :: tail) := by
  unfold b64decode
  rw [if_neg (fun hcon => hc3 hcon.2.1), if_neg (fun hcon => hc4 hcon.2),
    h1, h2, h3, h4, hrest]

theorem b64_roundtrip :
    ∀ (bs : List Nat), (∀ b ∈ bs, b < 256) → b64decode (b64encode bs) = some bs
  | [], _ => by simp [b64encode, b64decode]
  | [a], h => by
      have ha : a < 256 := h a (by simp)
      have h1 : a / 4 < 64 := by omega
      have h2 : a % 4 * 16 < 64 := by omega
      show b64decode [b64Char (a / 4), b64Char (a % 4 * 16), '=', '='] = some [a]
      rw [b64decode_pad2 _ _ _ _ (b64CharVal_b64Char_all _ h1) (b64CharVal_b64Char_all _ h2)]
      simp only [Option.some.injEq, List.cons.injEq, and_true]
      omega
  | [a, b], h => by
      have ha : a < 256 := h a (by simp)
      have hb : b < 256 := h b (by simp)
      have h1 : a / 4 < 64 := by omega
      have h2 : a % 4 * 16 + b / 16 < 64 := by omega
      have h3 : b % 16 * 4 < 64 := by omega
      show b64decode [b64Char (a / 4), b64Char (a % 4 * 16 + b / 16),
        b64Char (b % 16 * 4), '='] = some [a, b]
      rw [b64decode_pad1 _ _ _ _ _ _ (b64Char_ne_pad _ h3)
        (b64CharVal_b64Char_all _ h1) (b64CharVal_b64Char_all _ h2)
        (b64CharVal_b64Char_all _ h3)]
      simp only [Option.some.injEq, List.cons.injEq, and_true]
      constructor
      · omega
      · omega
  | a :: b :: c :: rest, h => by
      have ha : a < 256 := h a (by simp)
      have hb : b < 256 := h b (by simp)
      have hc : c < 256 := h c (by simp)
      have hrest : ∀ x ∈ rest, x < 256 := fun x hx => h x (by simp [hx])
      have ih := b64_roundtrip rest hrest
      have h1 : a / 4 < 64 := by omega
      have h2 : a % 4 * 16 + b / 16 < 64 := by omega
      have h3 : b % 16 * 4 + c / 64 < 64 := by omega
      have h4 : c % 64 < 64 := by omega
      show b64decode (b64Char (a / 4) :: b64Char (a % 4 * 16 + b / 16) ::
        b64Char (b % 16 * 4 + c / 64) :: b64Char (c % 64) :: b64encode rest)
        = some (a :: b :: c :: rest)
      rw [b64decode_full _ _ _ _ _ _ _ _ _ _ (b64Char_ne_pad _ h3) (b64Char_ne_pad _ h4)
        (b64CharVal_b64Char_all _ h1) (b64CharVal_b64Char_all _ h2)
        (b64CharVal_b64Char_all _ h3) (b64CharVal_b64Char_all _ h4) ih]
      simp only [Option.some.injEq, List.cons.injEq]
      exact ⟨by omega, by omega, by omega, trivial⟩

/-! ### Pipeline correspondence lemmas -/

theorem meshStep_files (o : UnityObject) :
    (meshStep o).files
      = (meshStep o).assets.map (fun a => ⟨Folder.geo, a.filename, a.payload⟩) := by
  unfold meshStep
  by_cases ht : o.typeName = "Mesh".toList
  · rw [if_pos ht]
    cases o.read with
    | throws e => rfl
    | ok nameAttr ex =>
        cases ex with
        | throws e => rfl
        | ok pl =>
            by_cases hpl : pl = []
            · simp [hpl]
            · simp [hpl]
  · rw [if_neg ht]; rfl

theorem texStep_files (o : UnityObject) :
    (texStep o).files
      = (texStep o).assets.map (fun a => ⟨Folder.tex, a.filename, a.payload⟩) := by
  unfold texStep
  by_cases ht : o.typeName = "Texture2D".toList
  · rw [if_pos ht]
    cases o.read with
    | throws e => rfl
    | ok nameAttr ex => cases ex with
      | throws e => rfl
      | ok pl => rfl
  · rw [if_neg ht]; rfl

theorem spriteStep_files (o : UnityObject) :
    (spriteStep o).files
      = (spriteStep o).assets.map (fun a => ⟨Folder.tex, a.filename, a.payload⟩) := by
  unfold spriteStep
  by_cases ht : o.typeName = "Sprite".toList
  · rw [if_pos ht]
    cases o.read with
    | throws e => rfl
    | ok nameAttr ex => cases ex with
      | throws e => rfl
      | ok pl => rfl
  · rw [if_neg ht]; rfl

theorem runSteps_files_map (step : UnityObject → ExtractResult)
    (mk : ExtractedAsset → FileWrite)
    (hstep : ∀ o, (step o).files = (step o).assets.map mk) :
    ∀ objs, (runSteps step objs).files = (runSteps step objs).assets.map mk := by
  intro objs
  induction objs with
  | nil => rfl
  | cons o rest ih =>
      show (step o).files ++ (runSteps step rest).files
        = ((step o).assets ++ (runSteps step rest).assets).map mk
      rw [List.map_append, hstep, ih]

theorem extractMeshes_files (objs : List UnityObject) :
    (extractMeshes objs).files
      = (extractMeshes objs).assets.map (fun a => ⟨Folder.geo, a.filename, a.payload⟩) :=
  runSteps_files_map meshStep _ meshStep_files objs

theorem extractTextures_files (objs : List UnityObject) :
    (extractTextures objs).files
      = (extractTextures objs).assets.map (fun a => ⟨Folder.tex, a.filename, a.payload⟩) :=
  runSteps_files_map texStep _ texStep_files objs

theorem extractSprites_files (objs : List UnityObject) :
    (extractSprites objs).files
      = (extractSprites objs).assets.map (fun a => ⟨Folder.tex, a.filename, a.payload⟩) :=
  runSteps_files_map spriteStep _ spriteStep_files objs

theorem meshStep_payload (o : UnityObject) (a : ExtractedAsset)
    (ha : a ∈ (meshStep o).assets) :
    ∃ nameAttr pl, o.read = ReadOutcome.ok nameAttr (ExportOutcome.ok pl)
      ∧ a.payload = pl := by
  unfold meshStep at ha
  by_cases ht : o.typeName = "Mesh".toList
  · rw [if_pos ht] at ha
    cases hr : o.read with
    | throws e => rw [hr] at ha; simp at ha
    | ok nameAttr ex =>
        rw [hr] at ha
        cases ex with
        | throws e => simp at ha
        | ok pl =>
            by_cases hpl : pl = []
            · simp [hpl] at ha
            · simp [hpl] at ha
              exact ⟨nameAttr, pl, rfl, by rw [ha]⟩
  · rw [if_neg ht] at ha; simp at ha

theorem texStep_payload (o : UnityObject) (a : ExtractedAsset)
    (ha : a ∈ (texStep o).assets) :
    ∃ nameAttr pl, o.read = ReadOutcome.ok nameAttr (ExportOutcome.ok pl)
      ∧ a.payload = pl := by
  unfold texStep at ha
  by_cases ht : o.typeName = "Texture2D".toList
  · rw [if_pos ht] at ha
    cases hr : o.read with
    | throws e => rw [hr] at ha; simp at ha
    | ok nameAttr ex =>
        rw [hr] at ha
        cases ex with
        | throws e => simp at ha
        | ok pl =>
            simp at ha
            exact ⟨nameAttr, pl, rfl, by rw [ha]⟩
  · rw [if_neg ht] at ha; simp at ha

theorem spriteStep_payload (o : UnityObject) (a : ExtractedAsset)
    (ha : a ∈ (spriteStep o).assets) :
    ∃ nameAttr pl, o.read = ReadOutcome.ok nameAttr (ExportOutcome.ok pl)
      ∧ a.payload = pl := by
  unfold spriteStep at ha
  by_cases ht : o.typeName = "Sprite".toList
  · rw [if_pos ht] at ha
    cases hr : o.read with
    | throws e => rw [hr] at ha; simp at ha
    | ok nameAttr ex =>
        rw [hr] at ha
        cases ex with
        | throws e => simp at ha
        | ok pl =>
            simp at ha
            exact ⟨nameAttr, pl, rfl, by rw [ha]⟩
  · rw [if_neg ht] at ha; simp at ha

/-- Wellformedness of a decoded object: exported payloads are byte strings. -/
def WFObj (o : UnityObject) : Prop :=
  ∀ nameAttr pl, o.read = ReadOutcome.ok nameAttr (ExportOutcome.ok pl) →
    ∀ b ∈ pl, b < 256

instance (o : UnityObject) : Decidable (WFObj o) := by
  unfold WFObj
  cases o.read with
  | throws e =>
      exact isTrue (by intro na pl hcon; cases hcon)
  | ok nameAttr ex =>
      cases ex with
      | throws e => exact isTrue (by intro na pl hcon; cases hcon)
      | ok pl =>
          by_cases hb : ∀ b ∈ pl, b < 256
          · exact isTrue (by intro na pl' heq b hbmem; cases heq; exact hb b hbmem)
          · exact isFalse (fun hcon => hb (hcon nameAttr pl rfl))

theorem runSteps_payload_bound (step : UnityObject → ExtractResult)
    (hstep : ∀ o a, a ∈ (step o).assets →
      ∃ nameAttr pl, o.read = ReadOutcome.ok nameAttr (ExportOutcome.ok pl)
        ∧ a.payload = pl)
    (objs : List UnityObject) (hwf : ∀ o ∈ objs, WFObj o) :
    ∀ a ∈ (runSteps step objs).assets, ∀ b ∈ a.payload, b < 256 := by
  induction objs with
  | nil => intro a ha; cases ha
  | cons o rest ih =>
      intro a ha
      have ha' : a ∈ (step o).assets ++ (runSteps step rest).assets := ha
      rcases List.mem_append.mp ha' with hin | hin
      · obtain ⟨nameAttr, pl, hread, hpay⟩ := hstep o a hin
        intro b hb
        exact hwf o (by simp) nameAttr pl hread b (hpay ▸ hb)
      · exact ih (fun x hx => hwf x (by simp [hx])) a hin

/-! ### Disk lookup lemmas -/

theorem filter_wrong_folder (l : List FileWrite) (fo : Folder) (fn : List Char)
    (h : ∀ w ∈ l, w.folder ≠ fo) :
    l.filter (fun w => decide (w.folder = fo) && decide (w.filename = fn)) = [] := by
  induction l with
  | nil => rfl
  | cons w rest ih =>
      have hw : w.folder ≠ fo := h w (by simp)
      rw [List.filter_cons]
      simp only [hw, decide_False, Bool.false_and, if_neg Bool.false_ne_true]
      exact ih (fun x hx => h x (by simp [hx]))

theorem filter_wrong_filename (fo : Folder) (fn : List Char)
    (mk : ExtractedAsset → FileWrite)
    (hfn : ∀ x, (mk x).filename = x.filename)
    (l : List ExtractedAsset) (h : ∀ x ∈ l, x.filename ≠ fn) :
    (l.map mk).filter (fun w => decide (w.folder = fo) && decide (w.filename = fn)) = [] := by
  induction l with
  | nil => rfl
  | cons x rest ih =>
      rw [List.map_cons, List.filter_cons]
      have hx : (mk x).filename ≠ fn := by rw [hfn]; exact h x (by simp)
      simp only [hx, decide_False, Bool.and_false, if_neg Bool.false_ne_true]
      exact ih (fun y hy => h y (by simp [hy]))

theorem lastFiltered (fo : Folder) (mk : ExtractedAsset → FileWrite)
    (hfo : ∀ x, (mk x).folder = fo) (hfn : ∀ x, (mk x).filename = x.filename) :
    ∀ (l : List ExtractedAsset), (l.map ExtractedAsset.filename).Nodup →
      ∀ a ∈ l,
        ((l.map mk).filter
          (fun w => decide (w.folder = fo) && decide (w.filename = a.filename))).getLast?
        = some (mk a) := by
  intro l
  induction l with
  | nil => intro _ a ha; cases ha
  | cons x rest ih =>
      intro hnd a ha
      rw [List.map_cons, List.nodup_cons] at hnd
      obtain ⟨hxnotin, hndrest⟩ := hnd
      rw [List.map_cons, List.filter_cons]
      rcases List.mem_cons.mp ha with rfl | hmem
      · simp only [hfo, hfn, decide_True, Bool.and_self, if_pos rfl]
        rw [filter_wrong_filename fo a.filename mk hfn rest
          (fun y hy hcon => hxnotin (hcon ▸ List.mem_map_of_mem ExtractedAsset.filename hy))]
        rfl
      · have hne : (mk x).filename ≠ a.filename := by
          rw [hfn]
          intro hcon
          exact hxnotin (hcon ▸ List.mem_map_of_mem ExtractedAsset.filename hmem)
        simp only [hne, decide_False, Bool.and_false, if_neg Bool.false_ne_true]
        exact ih hndrest a hmem

theorem extractTextures_folder (objs : List UnityObject) (w : FileWrite)
    (hw : w ∈ (extractTextures objs).files) : w.folder = Folder.tex := by
  rw [extractTextures_files] at hw
  obtain ⟨x, -, rfl⟩ := List.mem_map.mp hw
  rfl

theorem extractSprites_folder (objs : List UnityObject) (w : FileWrite)
    (hw : w ∈ (extractSprites objs).files) : w.folder = Folder.tex := by
  rw [extractSprites_files] at hw
  obtain ⟨x, -, rfl⟩ := List.mem_map.mp hw
  rfl

theorem extractMeshes_folder (objs : List UnityObject) (w : FileWrite)
    (hw : w ∈ (extractMeshes objs).files) : w.folder = Folder.geo := by
  rw [extractMeshes_files] at hw
  obtain ⟨x, -, rfl⟩ := List.mem_map.mp hw
  rfl

theorem diskContents_geo (objs : List UnityObject)
    (hnd : ((extractMeshes objs).assets.map ExtractedAsset.filename).Nodup)
    (a : ExtractedAsset) (ha : a ∈ (extractMeshes objs).assets) :
    diskContents (run objs).files Folder.geo a.filename = some a.payload := by
  have hruns : (run objs).files = (extractMeshes objs).files
      ++ ((extractTextures objs).files ++ (extractSprites objs).files) := by
    simp [run]
  unfold diskContents
  rw [hruns, List.filter_append, List.filter_append,
    filter_wrong_folder (extractTextures objs).files Folder.geo a.filename (fun w hw => by
      rw [extractTextures_folder objs w hw]; intro hcon; cases hcon),
    filter_wrong_folder (extractSprites objs).files Folder.geo a.filename (fun w hw => by
      rw [extractSprites_folder objs w hw]; intro hcon; cases hcon),
    List.append_nil, List.append_nil, extractMeshes_files]
  rw [lastFiltered Folder.geo (fun a => ⟨Folder.geo, a.filename, a.payload⟩)
    (fun _ => rfl) (fun _ => rfl) (extractMeshes objs).assets hnd a ha]
  rfl

theorem diskContents_tex (objs : List UnityObject)
    (hnd : ((textureData objs).map ExtractedAsset.filename).Nodup)
    (a : ExtractedAsset) (ha : a ∈ textureData objs) :
    diskContents (run objs).files Folder.tex a.filename = some a.payload := by
  have hruns : (run objs).files = (extractMeshes objs).files
      ++ ((extractTextures objs).files ++ (extractSprites objs).files) := by
    simp [run]
  have hcomb : (extractTextures objs).files ++ (extractSprites objs).files
      = (textureData objs).map (fun a => ⟨Folder.tex, a.filename, a.payload⟩) := by
    rw [extractTextures_files, extractSprites_files, textureData, List.map_append]
  unfold diskContents
  rw [hruns, List.filter_append,
    filter_wrong_folder (extractMeshes objs).files Folder.tex a.filename (fun w hw => by
      rw [extractMeshes_folder objs w hw]; intro hcon; cases hcon),
    List.nil_append, hcomb]
  rw [lastFiltered Folder.tex (fun a => ⟨Folder.tex, a.filename, a.payload⟩)
    (fun _ => rfl) (fun _ => rfl) (textureData objs) hnd a ha]
  rfl

/-! ### Lower-casing and substring lemmas (for the classifier) -/

theorem listStartsWith_lower (n : List Char) :
    ∀ h, listStartsWith n h = true →
      listStartsWith (pyLower n) (pyLower h) = true := by
  induction n with
  | nil => intro h _; rfl
  | cons a n ih =>
      intro h hs
      cases h with
      | nil => cases hs
      | cons b t =>
          simp only [listStartsWith, Bool.and_eq_true, decide_eq_true_eq] at hs
          obtain ⟨rfl, hrest⟩ := hs
          simp only [pyLower, List.map_cons, listStartsWith, Bool.and_eq_true,
            decide_eq_true_eq]
          exact ⟨trivial, ih t hrest⟩

theorem isSubstring_lower (n : List Char) :
    ∀ h, isSubstring n h = true → isSubstring (pyLower n) (pyLower h) = true := by
  intro h
  induction h with
  | nil =>
      intro hs
      cases n with
      | nil => rfl
      | cons a t => cases hs
  | cons c rest ih =>
      intro hs
      rcases Bool.or_eq_true _ _ |>.mp hs with hstart | hsub
      · exact Bool.or_eq_true _ _ |>.mpr (Or.inl (listStartsWith_lower n (c :: rest) hstart))
      · exact Bool.or_eq_true _ _ |>.mpr (Or.inr (ih hsub))

/-! ### Claim theorems -/

/-- C1: for every run, the preset's Modules list is exactly one trail module
first, followed by one custom-model module per extracted mesh in extraction
order; hence it has `1 + (number of extracted meshes)` entries, and that
count is independent of the extracted textures. -/
theorem c1_modules (objs : List UnityObject) :
    (run objs).preset.modules
      = trailModule (trailTextureOf (textureData objs))
          :: (extractMeshes objs).assets.map customModelModule
    ∧ (run objs).preset.modules.length = 1 + (extractMeshes objs).assets.length
    ∧ ∀ (meshes texA texB : List ExtractedAsset),
        (buildPreset meshes texA).modules.length
          = (buildPreset meshes texB).modules.length := by
  refine ⟨rfl, ?_, ?_⟩
  · show (trailModule (trailTextureOf (textureData objs))
      :: (extractMeshes objs).assets.map customModelModule).length = _
    rw [List.length_cons, List.length_map]
    omega
  · intro meshes texA texB
    show (trailModule (trailTextureOf texA) :: meshes.map customModelModule).length
      = (trailModule (trailTextureOf texB) :: meshes.map customModelModule).length
    rw [List.length_cons, List.length_cons]

/-- C2: every `modelId` inside a module names an AssetName of
`BinaryAssets.Geometry`; both trail texture-id fields name an AssetName of
`BinaryAssets.Textures`, or are the empty string exactly when no texture was
extracted; and when a texture exists, both trail fields are the first
extracted texture's filename. -/
theorem c2_refs (objs : List UnityObject) :
    (∀ m ∈ (run objs).preset.modules, ∀ mid, m.config = ModuleConfig.customModel mid →
        mid ∈ (run objs).preset.geometry.map BinaryAsset.assetName)
    ∧ (∀ m ∈ (run objs).preset.modules, ∀ x y, m.config = ModuleConfig.trail x y →
        (textureData objs = [] ∧ x = [] ∧ y = [])
        ∨ (x ∈ (run objs).preset.textures.map BinaryAsset.assetName ∧ y = x))
    ∧ (∀ t ts, textureData objs = t :: ts →
        (run objs).preset.modules.head? = some (trailModule t.filename)
        ∧ t.filename ∈ (run objs).preset.textures.map BinaryAsset.assetName) := by
  have hmods : (run objs).preset.modules
      = trailModule (trailTextureOf (textureData objs))
        :: (extractMeshes objs).assets.map customModelModule := rfl
  have hgeo : (run objs).preset.geometry.map BinaryAsset.assetName
      = (extractMeshes objs).assets.map ExtractedAsset.filename := by
    show ((extractMeshes objs).assets.map
        (fun m => (⟨m.filename, b64encode m.payload⟩ : BinaryAsset))).map
        BinaryAsset.assetName = _
    rw [List.map_map]
    rfl
  have htexs : (run objs).preset.textures.map BinaryAsset.assetName
      = (textureData objs).map ExtractedAsset.filename := by
    show ((textureData objs).map
        (fun t => (⟨t.filename, b64encode t.payload⟩ : BinaryAsset))).map
        BinaryAsset.assetName = _
    rw [List.map_map]
    rfl
  refine ⟨?_, ?_, ?_⟩
  · intro m hm mid hconf
    rw [hmods] at hm
    rcases List.mem_cons.mp hm with rfl | hmem
    · cases hconf
    · obtain ⟨mesh, hmesh, rfl⟩ := List.mem_map.mp hmem
      cases hconf
      rw [hgeo]
      exact List.mem_map_of_mem ExtractedAsset.filename hmesh
  · intro m hm x y hconf
    rw [hmods] at hm
    rcases List.mem_cons.mp hm with rfl | hmem
    · cases hconf
      cases htd : textureData objs with
      | nil =>
          left
          exact ⟨rfl, rfl, rfl⟩
      | cons t ts =>
          right
          constructor
          · rw [htexs, htd]
            show t.filename ∈ List.map ExtractedAsset.filename (t :: ts)
            exact List.mem_map_of_mem ExtractedAsset.filename (List.mem_cons_self t ts)
          · rfl
    · obtain ⟨mesh, hmesh, rfl⟩ := List.mem_map.mp hmem
      cases hconf
  · intro t ts htd
    constructor
    · rw [hmods]
      show some (trailModule (trailTextureOf (textureData objs))) = _
      rw [htd]
      rfl
    · rw [htexs, htd]
      show t.filename ∈ List.map ExtractedAsset.filename (t :: ts)
      exact List.mem_map_of_mem ExtractedAsset.filename (List.mem_cons_self t ts)

/-- C3: sanitization keeps only alphanumerics, spaces, hyphens and
underscores and strips leading/trailing whitespace; when the kept characters
strip to the empty string the result is the synthesized fallback name. -/
theorem c3_sanitize (s f : List Char) :
    (cleanName s = [] → sanitize s f = f)
    ∧ (cleanName s ≠ [] →
        sanitize s f = pyStrip (s.filter keepChar)
        ∧ (∀ c ∈ sanitize s f, keepChar c = true)
        ∧ pyStrip (sanitize s f) = sanitize s f) := by
  constructor
  · intro hempty
    unfold sanitize
    rw [if_pos hempty]
  · intro hne
    have hval : sanitize s f = cleanName s := by
      unfold sanitize
      rw [if_neg hne]
    refine ⟨hval, ?_, ?_⟩
    · intro c hc
      rw [hval] at hc
      exact mem_cleanName_keep s c hc
    · rw [hval]
      show pyStrip (pyStrip (s.filter keepChar)) = _
      rw [pyStrip_idem]
      rfl

/-- Witness for C3 at a concrete input whose kept characters survive. -/
theorem c3_sanitize_witness :
    sanitize " ab#c ".toList "f".toList = pyStrip (" ab#c ".toList.filter keepChar) :=
  ((c3_sanitize " ab#c ".toList "f".toList).2 (by decide)).1

/-- C9 fails as stated: with input `"#"` and fallback `"a!"` the first
application returns the fallback `"a!"`, and sanitizing that again yields
`"a"`, not `"a!"`. -/
theorem c9_counterexample :
    ¬ (sanitize (sanitize "#".toList "a!".toList) "a!".toList
        = sanitize "#".toList "a!".toList) := by
  decide

/-- C9 amended: sanitization is idempotent for every input whenever the
fallback is itself fixed by the cleaning step — which holds for every
fallback the program synthesizes (`mesh_N`, `texture_N`, `sprite_N`). -/
theorem c9_amended (x f : List Char) (hf : cleanName f = f) :
    sanitize (sanitize x f) f = sanitize x f := by
  by_cases hx : cleanName x = []
  · have h1 : sanitize x f = f := by unfold sanitize; rw [if_pos hx]
    rw [h1]
    unfold sanitize
    rw [hf]
    by_cases hfe : f = []
    · rw [if_pos hfe, hfe]
    · rw [if_neg hfe]
  · have h1 : sanitize x f = cleanName x := by unfold sanitize; rw [if_neg hx]
    rw [h1]
    unfold sanitize
    rw [cleanName_idem, if_neg hx]

/-- Witness for C9 amended: the program's own fallback shape is clean-fixed. -/
theorem c9_amended_witness :
    cleanName "mesh_42".toList = "mesh_42".toList
    ∧ sanitize (sanitize " He##llo ".toList "mesh_42".toList) "mesh_42".toList
        = sanitize " He##llo ".toList "mesh_42".toList :=
  ⟨by decide, c9_amended " He##llo ".toList "mesh_42".toList (by decide)⟩

/-- C8: the classifier lower-cases its argument, returns hilt when a hilt
keyword occurs, else blade when a blade keyword occurs, else hilt; any name
containing "hilt" in any letter case maps to hilt; names containing a blade
keyword but no hilt keyword map to blade; the empty name maps to hilt; the
result is always hilt or blade. -/
theorem c8_categorize :
    (∀ name : List Char,
      (hasAnyKeyword hiltKeywords (pyLower name) = true →
          categorize_mesh name = "hilt".toList)
      ∧ (hasAnyKeyword hiltKeywords (pyLower name) = false →
          hasAnyKeyword bladeKeywords (pyLower name) = true →
          categorize_mesh name = "blade".toList)
      ∧ (hasAnyKeyword hiltKeywords (pyLower name) = false →
          hasAnyKeyword bladeKeywords (pyLower name) = false →
          categorize_mesh name = "hilt".toList)
      ∧ (∀ s, pyLower s = "hilt".toList → isSubstring s name = true →
          categorize_mesh name = "hilt".toList)
      ∧ (categorize_mesh name = "hilt".toList ∨ categorize_mesh name = "blade".toList))
    ∧ categorize_mesh [] = "hilt".toList := by
  constructor
  · intro name
    refine ⟨?_, ?_, ?_, ?_, ?_⟩
    · intro hh
      unfold categorize_mesh
      rw [if_pos hh]
    · intro hh hb
      unfold categorize_mesh
      rw [hh, hb]
      rfl
    · intro hh hb
      unfold categorize_mesh
      rw [hh, hb]
      rfl
    · intro s hlow hsub
      have hsub2 : isSubstring (pyLower s) (pyLower name) = true :=
        isSubstring_lower s name hsub
      rw [hlow] at hsub2
      have hany : hasAnyKeyword hiltKeywords (pyLower name) = true := by
        unfold hasAnyKeyword
        apply List.any_eq_true.mpr
        exact ⟨"hilt".toList, by simp [hiltKeywords], hsub2⟩
      unfold categorize_mesh
      rw [if_pos hany]
    · unfold categorize_mesh
      by_cases hh : hasAnyKeyword hiltKeywords (pyLower name) = true
      · rw [if_pos hh]
        exact Or.inl rfl
      · rw [if_neg hh]
        by_cases hb : hasAnyKeyword bladeKeywords (pyLower name) = true
        · rw [if_pos hb]
          exact Or.inr rfl
        · rw [if_neg hb]
          exact Or.inl rfl
  · decide

/-- Witness for C8: a name containing "HILT" in upper case maps to hilt, and
a blade-keyword-only name maps to blade. -/
theorem c8_categorize_witness :
    categorize_mesh "My_HILT_x".toList = "hilt".toList
    ∧ categorize_mesh "laser beam".toList = "blade".toList :=
  ⟨(c8_categorize.1 "My_HILT_x".toList).2.2.2.1 "HILT".toList (by decide) (by decide),
   (c8_categorize.1 "laser beam".toList).2.1 (by decide) (by decide)⟩

/-- C10: `texture_data` lists every extracted Texture2D asset (in encounter
order) before any extracted Sprite asset; when at least one Texture2D was
extracted the trail texture id is the first Texture2D asset's filename, and
it can come from the sprite pass only when the Texture2D pass extracted
nothing. -/
theorem c10_order (objs : List UnityObject) :
    textureData objs = (extractTextures objs).assets ++ (extractSprites objs).assets
    ∧ (run objs).preset.modules.head?
        = some (trailModule (trailTextureOf (textureData objs)))
    ∧ ((extractTextures objs).assets ≠ [] →
        ∃ t ts, (extractTextures objs).assets = t :: ts
          ∧ trailTextureOf (textureData objs) = t.filename)
    ∧ ((extractTextures objs).assets = [] →
        trailTextureOf (textureData objs)
          = trailTextureOf (extractSprites objs).assets) := by
  refine ⟨rfl, rfl, ?_, ?_⟩
  · intro hne
    cases h : (extractTextures objs).assets with
    | nil => exact absurd h hne
    | cons t ts =>
        refine ⟨t, ts, rfl, ?_⟩
        unfold textureData
        rw [h]
        rfl
  · intro h
    unfold textureData
    rw [h]
    rfl

/-- Witness for C10 with one extracted texture and one extracted sprite. -/
theorem c10_order_witness :
    trailTextureOf (textureData
      [⟨"Texture2D".toList, 1, ReadOutcome.ok (some "t".toList) (ExportOutcome.ok [0])⟩,
       ⟨"Sprite".toList, 2, ReadOutcome.ok (some "s".toList) (ExportOutcome.ok [1])⟩])
      = "t.png".toList := by
  obtain ⟨t, ts, hcons, htrail⟩ := (c10_order
    [⟨"Texture2D".toList, 1, ReadOutcome.ok (some "t".toList) (ExportOutcome.ok [0])⟩,
     ⟨"Sprite".toList, 2, ReadOutcome.ok (some "s".toList) (ExportOutcome.ok [1])⟩]).2.2.1
    (by decide)
  rw [htrail]
  have : t = ⟨"t".toList, "t.png".toList, [0], "t".toList⟩ := by
    have h2 := hcons
    rw [show (extractTextures
      [⟨"Texture2D".toList, 1, ReadOutcome.ok (some "t".toList) (ExportOutcome.ok [0])⟩,
       ⟨"Sprite".toList, 2, ReadOutcome.ok (some "s".toList) (ExportOutcome.ok [1])⟩]).assets
      = [⟨"t".toList, "t.png".toList, [0], "t".toList⟩] from by decide] at h2
    exact (List.cons.injEq _ _ _ _ ▸ h2 : _) |>.1.symm
  rw [this]

/-- Witness for C2 on a bundle with one mesh and one texture (Scenario A
shape): the trail module references the first texture's filename. -/
theorem c2_refs_witness :
    (run [⟨"Mesh".toList, 1, ReadOutcome.ok (some "Hilt_Base".toList) (ExportOutcome.ok [1])⟩,
          ⟨"Texture2D".toList, 2,
            ReadOutcome.ok (some "Blade_Glow".toList) (ExportOutcome.ok [2])⟩]).preset.modules.head?
      = some (trailModule "Blade_Glow.png".toList)
    ∧ "Blade_Glow.png".toList
        ∈ (run [⟨"Mesh".toList, 1,
              ReadOutcome.ok (some "Hilt_Base".toList) (ExportOutcome.ok [1])⟩,
            ⟨"Texture2D".toList, 2,
              ReadOutcome.ok (some "Blade_Glow".toList) (ExportOutcome.ok [2])⟩]).preset.textures.map
            BinaryAsset.assetName :=
  (c2_refs [⟨"Mesh".toList, 1, ReadOutcome.ok (some "Hilt_Base".toList) (ExportOutcome.ok [1])⟩,
            ⟨"Texture2D".toList, 2,
              ReadOutcome.ok (some "Blade_Glow".toList) (ExportOutcome.ok [2])⟩]).2.2
    ⟨"Blade_Glow".toList, "Blade_Glow.png".toList, [2], "Blade_Glow".toList⟩ [] (by decide)

/-- C4 fails as stated for Texture2D: the code's fallback is `texture_42`,
not the lower-cased type name `texture2d` joined with the handle. -/
theorem c4_counterexample :
    (extractTextures [⟨"Texture2D".toList, 42,
        ReadOutcome.ok none (ExportOutcome.ok [0])⟩]).assets.map ExtractedAsset.name
      = ["texture_42".toList]
    ∧ "texture_42".toList ≠ pyLower "Texture2D".toList ++ "_".toList ++ natDigits 42 := by
  decide

/-- C4 amended: the fallback is the lower-cased type name joined with the
identity handle for Mesh and Sprite, but for Texture2D the prefix is
`texture` (the `2D` suffix is dropped); name resolution uses the decoded
name when present and non-empty, else the fallback; and a mesh with an
all-invalid name and handle 42 resolves to `mesh_42.obj`. -/
theorem c4_amended (pid : Nat) (f : List Char) :
    meshFallback pid = pyLower "Mesh".toList ++ "_".toList ++ natDigits pid
    ∧ spriteFallback pid = pyLower "Sprite".toList ++ "_".toList ++ natDigits pid
    ∧ texFallback pid = "texture".toList ++ "_".toList ++ natDigits pid
    ∧ texFallback pid ≠ pyLower "Texture2D".toList ++ "_".toList ++ natDigits pid
    ∧ resolveName none f = f
    ∧ resolveName (some []) f = f
    ∧ (∀ n, n ≠ [] → resolveName (some n) f = n)
    ∧ (extractMeshes [⟨"Mesh".toList, 42,
        ReadOutcome.ok (some "###".toList) (ExportOutcome.ok [0])⟩]).assets.map
        ExtractedAsset.filename = ["mesh_42.obj".toList] := by
  refine ⟨rfl, rfl, rfl, ?_, rfl, rfl, ?_, by decide⟩
  · intro hcon
    rw [show pyLower "Texture2D".toList = "texture2d".toList from rfl] at hcon
    unfold texFallback at hcon
    have hl := congrArg List.length hcon
    rw [List.length_append, List.length_append, List.length_append] at hl
    rw [show ("texture_".toList).length = 8 from rfl,
      show ("texture2d".toList).length = 9 from rfl,
      show ("_".toList).length = 1 from rfl] at hl
    omega
  · intro n hn
    show (if n = [] then f else n) = n
    rw [if_neg hn]

/-- Witness for C4 amended: name resolution keeps a non-empty decoded name. -/
theorem c4_amended_witness :
    resolveName (some "Blade".toList) "fb".toList = "Blade".toList :=
  (c4_amended 42 "fb".toList).2.2.2.2.2.2.1 "Blade".toList (by decide)

/-- C5 fails as stated: a Texture2D whose export yields an empty payload is
not skipped — it is recorded as an asset, its (empty) file is written, and
no warning is printed. -/
theorem c5_counterexample :
    (extractTextures [⟨"Texture2D".toList, 7,
        ReadOutcome.ok (some "t".toList) (ExportOutcome.ok [])⟩]).assets
      = [⟨"t".toList, "t.png".toList, [], "t".toList⟩]
    ∧ (extractTextures [⟨"Texture2D".toList, 7,
        ReadOutcome.ok (some "t".toList) (ExportOutcome.ok [])⟩]).warnings = []
    ∧ (extractTextures [⟨"Texture2D".toList, 7,
        ReadOutcome.ok (some "t".toList) (ExportOutcome.ok [])⟩]).files
      = [⟨Folder.tex, "t.png".toList, []⟩] := by
  decide

/-- C5 amended: texture and sprite objects are warned and skipped (no file
written) exactly when reading or exporting throws; unlike the mesh pass
there is no empty-payload check, so any non-throwing texture/sprite export
is written and recorded even when its payload is empty; a mesh whose export
yields an empty payload is warned and skipped with no file written; and
processing always continues past a failed object. -/
theorem c5_amended :
    (∀ o e, o.typeName = "Texture2D".toList → o.read = ReadOutcome.throws e →
        (texStep o).assets = [] ∧ (texStep o).files = []
        ∧ (texStep o).warnings = ["Failed to process texture object: ".toList ++ e])
    ∧ (∀ o nameAttr e, o.typeName = "Texture2D".toList →
        o.read = ReadOutcome.ok nameAttr (ExportOutcome.throws e) →
        (texStep o).assets = [] ∧ (texStep o).files = []
        ∧ (texStep o).warnings.length = 1)
    ∧ (∀ o nameAttr pl, o.typeName = "Texture2D".toList →
        o.read = ReadOutcome.ok nameAttr (ExportOutcome.ok pl) →
        (texStep o).assets.length = 1 ∧ (texStep o).files.length = 1
        ∧ (texStep o).warnings = [])
    ∧ (∀ o e, o.typeName = "Sprite".toList → o.read = ReadOutcome.throws e →
        (spriteStep o).assets = [] ∧ (spriteStep o).files = []
        ∧ (spriteStep o).warnings = ["Failed to process sprite object: ".toList ++ e])
    ∧ (∀ o nameAttr e, o.typeName = "Sprite".toList →
        o.read = ReadOutcome.ok nameAttr (ExportOutcome.throws e) →
        (spriteStep o).assets = [] ∧ (spriteStep o).files = []
        ∧ (spriteStep o).warnings.length = 1)
    ∧ (∀ o nameAttr pl, o.typeName = "Sprite".toList →
        o.read = ReadOutcome.ok nameAttr (ExportOutcome.ok pl) →
        (spriteStep o).assets.length = 1 ∧ (spriteStep o).files.length = 1
        ∧ (spriteStep o).warnings = [])
    ∧ (∀ o nameAttr, o.typeName = "Mesh".toList →
        o.read = ReadOutcome.ok nameAttr (ExportOutcome.ok []) →
        (meshStep o).assets = [] ∧ (meshStep o).files = []
        ∧ (meshStep o).warnings.length = 1)
    ∧ (∀ o rest,
        (extractTextures (o :: rest)).assets
          = (texStep o).assets ++ (extractTextures rest).assets
        ∧ (extractSprites (o :: rest)).assets
          = (spriteStep o).assets ++ (extractSprites rest).assets
        ∧ (extractMeshes (o :: rest)).assets
          = (meshStep o).assets ++ (extractMeshes rest).assets) := by
  refine ⟨?_, ?_, ?_, ?_, ?_, ?_, ?_, ?_⟩
  · intro o e ht hr
    have hstep : texStep o
        = ⟨[], [], ["Failed to process texture object: ".toList ++ e]⟩ := by
      unfold texStep
      rw [if_pos ht, hr]
    rw [hstep]
    exact ⟨rfl, rfl, rfl⟩
  · intro o nameAttr e ht hr
    have hstep : texStep o
        = ⟨[], [], ["Failed to export texture '".toList
            ++ sanitize (resolveName nameAttr (texFallback o.pathId)) (texFallback o.pathId)
            ++ "': ".toList ++ e]⟩ := by
      unfold texStep
      rw [if_pos ht, hr]
    rw [hstep]
    exact ⟨rfl, rfl, rfl⟩
  · intro o nameAttr pl ht hr
    have hstep : texStep o
        = ⟨[⟨sanitize (resolveName nameAttr (texFallback o.pathId)) (texFallback o.pathId),
            sanitize (resolveName nameAttr (texFallback o.pathId)) (texFallback o.pathId)
              ++ ".png".toList, pl, resolveName nameAttr (texFallback o.pathId)⟩],
           [⟨Folder.tex,
            sanitize (resolveName nameAttr (texFallback o.pathId)) (texFallback o.pathId)
              ++ ".png".toList, pl⟩], []⟩ := by
      unfold texStep
      rw [if_pos ht, hr]
    rw [hstep]
    exact ⟨rfl, rfl, rfl⟩
  · intro o e ht hr
    have hstep : spriteStep o
        = ⟨[], [], ["Failed to process sprite object: ".toList ++ e]⟩ := by
      unfold spriteStep
      rw [if_pos ht, hr]
    rw [hstep]
    exact ⟨rfl, rfl, rfl⟩
  · intro o nameAttr e ht hr
    have hstep : spriteStep o
        = ⟨[], [], ["Failed to export sprite '".toList
            ++ sanitize (resolveName nameAttr (spriteFallback o.pathId)) (spriteFallback o.pathId)
            ++ "': ".toList ++ e]⟩ := by
      unfold spriteStep
      rw [if_pos ht, hr]
    rw [hstep]
    exact ⟨rfl, rfl, rfl⟩
  · intro o nameAttr pl ht hr
    have hstep : spriteStep o
        = ⟨[⟨sanitize (resolveName nameAttr (spriteFallback o.pathId)) (spriteFallback o.pathId),
            sanitize (resolveName nameAttr (spriteFallback o.pathId)) (spriteFallback o.pathId)
              ++ ".png".toList, pl, resolveName nameAttr (spriteFallback o.pathId)⟩],
           [⟨Folder.tex,
            sanitize (resolveName nameAttr (spriteFallback o.pathId)) (spriteFallback o.pathId)
              ++ ".png".toList, pl⟩], []⟩ := by
      unfold spriteStep
      rw [if_pos ht, hr]
    rw [hstep]
    exact ⟨rfl, rfl, rfl⟩
  · intro o nameAttr ht hr
    have hstep : meshStep o
        = ⟨[], [], ["Empty mesh export for: ".toList
            ++ sanitize (resolveName nameAttr (meshFallback o.pathId)) (meshFallback o.pathId)]⟩ := by
      unfold meshStep
      rw [if_pos ht, hr]
      rfl
    rw [hstep]
    exact ⟨rfl, rfl, rfl⟩
  · intro o rest
    exact ⟨rfl, rfl, rfl⟩

/-- Witness for C5 amended: a concrete mesh with an empty export payload is
skipped with one warning and no file. -/
theorem c5_amended_witness :
    (meshStep ⟨"Mesh".toList, 3, ReadOutcome.ok (some "m".toList) (ExportOutcome.ok [])⟩).assets = []
    ∧ (meshStep ⟨"Mesh".toList, 3,
        ReadOutcome.ok (some "m".toList) (ExportOutcome.ok [])⟩).files = []
    ∧ (meshStep ⟨"Mesh".toList, 3,
        ReadOutcome.ok (some "m".toList) (ExportOutcome.ok [])⟩).warnings.length = 1 :=
  c5_amended.2.2.2.2.2.2.1
    ⟨"Mesh".toList, 3, ReadOutcome.ok (some "m".toList) (ExportOutcome.ok [])⟩
    (some "m".toList) rfl rfl

theorem runSteps_null (step : UnityObject → ExtractResult) :
    ∀ objs, (∀ o ∈ objs, step o = ⟨[], [], []⟩) →
      runSteps step objs = ⟨[], [], []⟩ := by
  intro objs
  induction objs with
  | nil => intro _; rfl
  | cons o rest ih =>
      intro h
      show (⟨(step o).assets ++ (runSteps step rest).assets,
        (step o).files ++ (runSteps step rest).files,
        (step o).warnings ++ (runSteps step rest).warnings⟩ : ExtractResult) = _
      rw [h o (by simp), ih (fun x hx => h x (by simp [hx]))]
      rfl

/-- C7: on a bundle with no Mesh, Texture2D or Sprite objects, a preset is
still produced with exactly one module — the trail, with empty-string
texture ids — both BinaryAssets lists empty, the no-meshes warning printed,
and exit status zero. -/
theorem c7_empty_bundle (objs : List UnityObject)
    (h : ∀ o ∈ objs, o.typeName ≠ "Mesh".toList
        ∧ o.typeName ≠ "Texture2D".toList ∧ o.typeName ≠ "Sprite".toList) :
    (run objs).preset.modules
      = [⟨"reezonate.simple-trail".toList, 1, ModuleConfig.trail [] []⟩]
    ∧ (run objs).preset.geometry = []
    ∧ (run objs).preset.textures = []
    ∧ (run objs).warnings = [noMeshWarnMsg]
    ∧ (run objs).exitCode = 0 := by
  have hm : extractMeshes objs = ⟨[], [], []⟩ := by
    apply runSteps_null
    intro o ho
    unfold meshStep
    rw [if_neg (h o ho).1]
  have htx : extractTextures objs = ⟨[], [], []⟩ := by
    apply runSteps_null
    intro o ho
    unfold texStep
    rw [if_neg (h o ho).2.1]
  have hs : extractSprites objs = ⟨[], [], []⟩ := by
    apply runSteps_null
    intro o ho
    unfold spriteStep
    rw [if_neg (h o ho).2.2]
  have hma : (extractMeshes objs).assets = [] := by rw [hm]
  have htd : textureData objs = [] := by
    unfold textureData
    rw [htx, hs]
    rfl
  refine ⟨?_, ?_, ?_, ?_, rfl⟩
  · have hmods : (run objs).preset.modules
        = trailModule (trailTextureOf (textureData objs))
          :: (extractMeshes objs).assets.map customModelModule := rfl
    rw [hmods, hma, htd]
    rfl
  · show (extractMeshes objs).assets.map
        (fun m => (⟨m.filename, b64encode m.payload⟩ : BinaryAsset)) = []
    rw [hma]
    rfl
  · show (textureData objs).map
        (fun t => (⟨t.filename, b64encode t.payload⟩ : BinaryAsset)) = []
    rw [htd]
    rfl
  · show (extractMeshes objs).warnings ++ (extractTextures objs).warnings
        ++ (extractSprites objs).warnings
        ++ (if (extractMeshes objs).assets = [] then [noMeshWarnMsg] else [])
      = [noMeshWarnMsg]
    rw [hm, htx, hs]
    rfl

/-- Witness for C7 on a bundle holding one unrelated object. -/
theorem c7_empty_bundle_witness :
    (run [⟨"GameObject".toList, 5, ReadOutcome.throws []⟩]).preset.modules
      = [⟨"reezonate.simple-trail".toList, 1, ModuleConfig.trail [] []⟩] :=
  (c7_empty_bundle [⟨"GameObject".toList, 5, ReadOutcome.throws []⟩] (by decide)).1

/-- C6 fails as stated: two meshes whose names sanitize to the same filename
produce two independent Geometry manifest entries, while on disk the second
write overwrites the first, so the first entry's decoded Data length (1)
differs from the final on-disk size (2). -/
theorem c6_counterexample :
    (run [⟨"Mesh".toList, 1, ReadOutcome.ok (some "a".toList) (ExportOutcome.ok [0])⟩,
          ⟨"Mesh".toList, 2,
            ReadOutcome.ok (some "a".toList) (ExportOutcome.ok [0, 0])⟩]).preset.geometry.head?
      = some ⟨"a.obj".toList, b64encode [0]⟩
    ∧ b64decode (b64encode [0]) = some [0]
    ∧ diskContents
        (run [⟨"Mesh".toList, 1, ReadOutcome.ok (some "a".toList) (ExportOutcome.ok [0])⟩,
              ⟨"Mesh".toList, 2,
                ReadOutcome.ok (some "a".toList) (ExportOutcome.ok [0, 0])⟩]).files
        Folder.geo "a.obj".toList
      = some [0, 0]
    ∧ ([0] : List Nat).length ≠ ([0, 0] : List Nat).length := by
  decide

/-- C6 amended: every manifest entry's Data is valid base64 decoding to the
recorded payload; and provided no two extracted assets of the same kind
share a filename, the decoded byte length equals the byte size of the file
left on disk under that AssetName (with duplicate filenames the file on
disk holds the last asset's bytes, while every duplicate entry keeps its
own bytes). -/
theorem c6_amended (objs : List UnityObject)
    (hwf : ∀ o ∈ objs, WFObj o)
    (hndg : ((extractMeshes objs).assets.map ExtractedAsset.filename).Nodup)
    (hndt : ((textureData objs).map ExtractedAsset.filename).Nodup) :
    (∀ e ∈ (run objs).preset.geometry, ∃ bs, b64decode e.data = some bs
        ∧ ∃ c, diskContents (run objs).files Folder.geo e.assetName = some c
        ∧ c.length = bs.length)
    ∧ (∀ e ∈ (run objs).preset.textures, ∃ bs, b64decode e.data = some bs
        ∧ ∃ c, diskContents (run objs).files Folder.tex e.assetName = some c
        ∧ c.length = bs.length) := by
  constructor
  · intro e he
    have hge : (run objs).preset.geometry
        = (extractMeshes objs).assets.map
            (fun m => (⟨m.filename, b64encode m.payload⟩ : BinaryAsset)) := rfl
    rw [hge] at he
    obtain ⟨a, ha, rfl⟩ := List.mem_map.mp he
    have hbound : ∀ b ∈ a.payload, b < 256 :=
      runSteps_payload_bound meshStep meshStep_payload objs hwf a ha
    exact ⟨a.payload, b64_roundtrip a.payload hbound, a.payload,
      diskContents_geo objs hndg a ha, rfl⟩
  · intro e he
    have hte : (run objs).preset.textures
        = (textureData objs).map
            (fun t => (⟨t.filename, b64encode t.payload⟩ : BinaryAsset)) := rfl
    rw [hte] at he
    obtain ⟨a, ha, rfl⟩ := List.mem_map.mp he
    have hbound : ∀ b ∈ a.payload, b < 256 := by
      rcases List.mem_append.mp ha with hin | hin
      · exact runSteps_payload_bound texStep texStep_payload objs hwf a hin
      · exact runSteps_payload_bound spriteStep spriteStep_payload objs hwf a hin
    exact ⟨a.payload, b64_roundtrip a.payload hbound, a.payload,
      diskContents_tex objs hndt a ha, rfl⟩

/-- Witness for C6 amended on a bundle with one mesh and one texture with
distinct filenames. -/
theorem c6_amended_witness :
    ∃ bs, b64decode ((⟨"m.obj".toList, b64encode [5]⟩ : BinaryAsset)).data = some bs
      ∧ ∃ c, diskContents
          (run [⟨"Mesh".toList, 1, ReadOutcome.ok (some "m".toList) (ExportOutcome.ok [5])⟩,
                ⟨"Texture2D".toList, 2,
                  ReadOutcome.ok (some "t".toList) (ExportOutcome.ok [7, 7])⟩]).files
          Folder.geo ((⟨"m.obj".toList, b64encode [5]⟩ : BinaryAsset)).assetName = some c
      ∧ c.length = bs.length :=
  (c6_amended [⟨"Mesh".toList, 1, ReadOutcome.ok (some "m".toList) (ExportOutcome.ok [5])⟩,
               ⟨"Texture2D".toList, 2,
                 ReadOutcome.ok (some "t".toList) (ExportOutcome.ok [7, 7])⟩]
    (by decide) (by decide) (by decide)).1
    ⟨"m.obj".toList, b64encode [5]⟩ (by decide)
